import Mathlib

/-!
Verification of the COVID19-Pipeline ETL code
(`dagster_pipeline/covid_pipeline/definitions.py`) against its
natural-language specification.

The pipeline stages are shallowly embedded as executable Lean functions:

* `github_api_list`  — the Lister op (lines 19-27 of the source);
* `fetch_csv_with_retry_body` together with `runOpWithRetry` — the Fetcher op
  (line 34-40) and the Dagster `RetryPolicy(max_retries=3, delay=5)` execution
  semantics attached to it (Dagster retries an op only when its body raises;
  a normal return, including `None`, ends the op successfully);
* `validate_and_process_data` — the Normalizer op (lines 42-98), built from
  models of `pandas.read_csv`, column-name normalization, schema completion,
  `pd.to_datetime(errors="coerce")`, `astype("float64", errors="ignore")`,
  the recovered-only check, and `pandera` schema validation;
* `load_data_to_postgres` — the Loader op (lines 100-124), returning the list
  of sink operations it performs plus whether it raised.

Library calls (`pandas`, `pandera`, `requests`, `dagster`) are modelled on the
subset of their documented behaviour that the pipeline exercises; each model
carries a comment pointing at the source construct it embeds.  Machine floats
never participate in any arithmetic in the source (values are only parsed,
stored and type-tagged), so float cells are carried symbolically as a decimal
mantissa/exponent pair.
-/

/-- A single value held by a data-frame cell.  `float m e` denotes the decimal
value `m / 10^e`; the pipeline never computes with floats, it only parses and
stores them, so the symbolic representation is exact for every literal the
code can produce. -/
inductive Cell
  | null
  | int (n : Int)
  | float (m : Int) (e : Nat)
  | str (s : String)
  | timestamp (t : Int)
deriving DecidableEq, Repr

/-- Pandas column dtypes that can arise in this pipeline. -/
inductive DType
  | int64
  | float64
  | object
  | datetime64
deriving DecidableEq, Repr

/-- One named, dtype-tagged column, as pandas stores it. -/
structure Col where
  name : String
  dtype : DType
  cells : List Cell
deriving DecidableEq, Repr

/-- A pandas DataFrame: an ordered list of columns. -/
structure DataFrame where
  cols : List Col
deriving DecidableEq, Repr

/-- The ordered column names, mirroring `df.columns`. -/
def DataFrame.columns (df : DataFrame) : List String :=
  df.cols.map (fun c => c.name)

/-- Number of rows, mirroring `len(df.index)` (all columns share one index). -/
def DataFrame.nrows (df : DataFrame) : Nat :=
  match df.cols with
  | [] => 0
  | c :: _ => c.cells.length

/-- Mirrors `df.empty`: true when either axis has length zero. -/
def DataFrame.isEmptyDf (df : DataFrame) : Bool :=
  df.cols.isEmpty || df.nrows == 0

/-- Errors the Normalizer can raise internally (all are caught by its
`except Exception` handler): a `pandas.read_csv` parse error, or a `pandera`
schema-validation error. -/
inductive Err
  | parseError
  | schemaError
deriving DecidableEq, Repr

/-! ### String helpers (structural, kernel-reducible) -/

/-- Split a character list on a separator character, keeping empty groups,
like Python `str.split(sep)`. -/
def splitCharList (sep : Char) : List Char → List (List Char)
  | [] => [[]]
  | c :: cs =>
    match splitCharList sep cs with
    | [] => [[]]
    | g :: gs => if c = sep then [] :: g :: gs else (c :: g) :: gs

/-- Strip leading and trailing whitespace from a character list, like Python
`str.strip()` with no argument. -/
def stripChars (l : List Char) : List Char :=
  ((l.dropWhile Char.isWhitespace).reverse.dropWhile Char.isWhitespace).reverse

/-- Python `str.strip()` on a Lean string. -/
def pyStrip (s : String) : String :=
  ⟨stripChars s.data⟩

/-- Python `str.endswith(".csv")`, used by the Lister's filter. -/
def endsWithCsv (s : String) : Bool :=
  ".csv".data.isSuffixOf s.data

/-! ### Numeric and timestamp literal parsing (models of pandas converters) -/

/-- Digits of a numeral to a natural number. -/
def digitsToNat (l : List Char) : Nat :=
  l.foldl (fun a c => a * 10 + (c.toNat - 48)) 0

/-- Parse an optionally-signed decimal integer literal, the shape pandas
reads as an `int64` field. -/
def parseIntLit (s : String) : Option Int :=
  match s.data with
  | '-' :: rest =>
    if !rest.isEmpty && rest.all Char.isDigit then some (-(digitsToNat rest : Int)) else none
  | l =>
    if !l.isEmpty && l.all Char.isDigit then some ((digitsToNat l : Int)) else none

/-- Parse an unsigned decimal literal with one point, returning mantissa and
number of fractional digits. -/
def parseDecimal (l : List Char) : Option (Int × Nat) :=
  match splitCharList '.' l with
  | [a, b] =>
    if (!a.isEmpty || !b.isEmpty) && a.all Char.isDigit && b.all Char.isDigit then
      some ((digitsToNat (a ++ b) : Int), b.length)
    else none
  | _ => none

/-- Parse an optionally-signed decimal float literal such as `10.5`, the shape
pandas reads as a `float64` field (exponent notation is not used by the
dataset and is out of the modelled subset). -/
def parseFloatLit (s : String) : Option (Int × Nat) :=
  match s.data with
  | '-' :: rest => (parseDecimal rest).map (fun p => (-p.1, p.2))
  | l => parseDecimal l

/-- Classify one raw CSV field the way `pandas.read_csv` infers it: empty
fields are missing values, integer literals are ints, float literals are
floats, anything else is a string. -/
def inferCell (f : String) : Cell :=
  if f = "" then Cell.null
  else
    match parseIntLit f with
    | some n => Cell.int n
    | none =>
      match parseFloatLit f with
      | some p => Cell.float p.1 p.2
      | none => Cell.str f

/-! ### `pandas.read_csv` model (line 67 of the source: `pd.read_csv(StringIO(raw_csv))`)

The modelled subset: split on newlines, skip blank lines (pandas default
`skip_blank_lines=True`), split each line on commas, take the first line as
the header, error when a data row has more fields than the header (pandas
tokenizer error), pad shorter rows with missing values, and infer each
column's dtype from its fields. -/

/-- Non-blank lines of the payload. -/
def csvLines (s : String) : List String :=
  ((splitCharList '\n' s.data).map (fun l => (⟨l⟩ : String))).filter
    (fun l => pyStrip l ≠ "")

/-- Fields of one line. -/
def csvFields (line : String) : List String :=
  (splitCharList ',' line.data).map (fun l => (⟨l⟩ : String))

/-- Does the cell hold a string? -/
def Cell.isStr : Cell → Bool
  | .str _ => true
  | _ => false

/-- Does the cell hold a missing value? -/
def Cell.isNullCell : Cell → Bool
  | .null => true
  | _ => false

/-- Does the cell hold a float? -/
def Cell.isFloat : Cell → Bool
  | .float _ _ => true
  | _ => false

/-- Pandas dtype inference for one parsed column: any string field makes the
column `object`; a column with no rows is `object`; presence of a float or a
missing value makes a numeric column `float64`; otherwise `int64`. -/
def inferDType (cells : List Cell) : DType :=
  if cells.any Cell.isStr then DType.object
  else if cells.isEmpty then DType.object
  else if cells.any Cell.isFloat || cells.any Cell.isNullCell then DType.float64
  else DType.int64

/-- In a `float64` column pandas stores integer literals as floats. -/
def promoteCell : Cell → Cell
  | .int n => .float n 0
  | c => c

/-- Assemble one column from its parsed cells, applying dtype inference. -/
def mkCol (name : String) (cells : List Cell) : Col :=
  match inferDType cells with
  | DType.float64 => ⟨name, DType.float64, cells.map promoteCell⟩
  | d => ⟨name, d, cells⟩

/-- Build the columns: the i-th column collects the i-th field of every row,
missing trailing fields read as missing values. -/
def buildCols : List String → List (List Cell) → List Col
  | [], _ => []
  | n :: ns, rows =>
    mkCol n (rows.map (fun r => r.headD Cell.null)) ::
      buildCols ns (rows.map (fun r => r.tail))

/-- The `pd.read_csv(StringIO(raw_csv))` call. -/
def read_csv (s : String) : Except Err DataFrame :=
  match csvLines s with
  | [] => Except.error Err.parseError
  | header :: rest =>
    let names := csvFields header
    let rawRows := rest.map csvFields
    if rawRows.any (fun r => names.length < r.length) then Except.error Err.parseError
    else Except.ok ⟨buildCols names (rawRows.map (fun r => r.map inferCell))⟩

/-! ### Column-name normalization (source lines 70-71) -/

/-- Map every character of a string (the pandas `.str` operations used here
are all single-character substring replacements, which act characterwise). -/
def strMapChars (f : Char → Char) (s : String) : String :=
  ⟨s.data.map f⟩

/-- `df.columns.str.lower()`. -/
def pyLower (s : String) : String :=
  strMapChars Char.toLower s

/-- `.str.replace(a, b)` for a single-character pattern. -/
def pyReplaceChar (a b : Char) (s : String) : String :=
  strMapChars (fun c => if c = a then b else c) s

/-- Source line 70:
`df.columns.str.lower().str.replace(" ", "_").str.replace("-", "_").str.replace("/", "_")`. -/
def pandasClean (s : String) : String :=
  pyReplaceChar '/' '_' (pyReplaceChar '-' '_' (pyReplaceChar ' ' '_' (pyLower s)))

/-- The fixed rename table of source line 71. -/
def renameTable : List (String × String) :=
  [("latitude", "lat"), ("longitude", "long_"), ("incidence_rate", "incident_rate")]

/-- `df.rename(columns=renameTable)`: exact-match lookup, otherwise identity. -/
def applyRename (s : String) : String :=
  match renameTable.find? (fun p => p.1 = s) with
  | some p => p.2
  | none => s

/-- Line 70 applied to every column name. -/
def normalizeColumns (df : DataFrame) : DataFrame :=
  ⟨df.cols.map (fun c => { c with name := pandasClean c.name })⟩

/-- Line 71 applied to every column name. -/
def renameColumns (df : DataFrame) : DataFrame :=
  ⟨df.cols.map (fun c => { c with name := applyRename c.name })⟩

/-- The composite per-header transformation the spec describes (lower-case,
replace space/hyphen/slash with underscore, then the fixed renames). -/
def normalizeName (s : String) : String :=
  applyRename (pandasClean s)

/-! ### Schema completion (source lines 73-76) -/

/-- The 14 canonical column names, in the order the schema dict declares
them (source lines 49-64). -/
def canonicalColumns : List String :=
  ["fips", "admin2", "province_state", "country_region", "last_update",
   "lat", "long_", "confirmed", "deaths", "recovered", "active",
   "combined_key", "incident_rate", "case_fatality_ratio"]

/-- Source lines 74-76: `for col in schema.columns: if col not in df.columns:
df[col] = None` — every missing canonical column is appended as an all-`None`
`object` column. -/
def addMissing (df : DataFrame) : DataFrame :=
  ⟨df.cols ++
    ((canonicalColumns.filter (fun c => !(df.columns.contains c))).map
      (fun n => ⟨n, DType.object, List.replicate df.nrows Cell.null⟩))⟩

/-! ### Type coercion (source lines 78-86) -/

/-- Timestamp parse attempt, modelling the subset of `pd.to_datetime` inputs
this dataset carries: missing values fail, numbers are epoch values, and a
string parses exactly when it starts with an ISO `YYYY-MM-DD` date, which is
encoded as the number `y*10000 + m*100 + d` (the time-of-day suffix is not
represented; no claim depends on the encoded value). -/
def tsParseString (s : String) : Option Int :=
  match s.data with
  | y1 :: y2 :: y3 :: y4 :: '-' :: m1 :: m2 :: '-' :: d1 :: d2 :: _ =>
    if [y1, y2, y3, y4, m1, m2, d1, d2].all Char.isDigit then
      some ((digitsToNat [y1, y2, y3, y4] * 10000 +
             digitsToNat [m1, m2] * 100 + digitsToNat [d1, d2] : Nat))
    else none
  | _ => none

/-- Timestamp parse attempt on a cell. -/
def tsParseCell : Cell → Option Int
  | .null => none
  | .int n => some n
  | .float m _ => some m
  | .str s => tsParseString s
  | .timestamp t => some t

/-- `pd.to_datetime(value, errors="coerce")` on one cell: unparseable values
become missing (`NaT`), never an exception. -/
def toDatetimeCell (v : Cell) : Cell :=
  match tsParseCell v with
  | some t => Cell.timestamp t
  | none => Cell.null

/-- Source lines 79-80: coerce the `last_update` column to datetime. -/
def coerceLastUpdate (df : DataFrame) : DataFrame :=
  if df.columns.contains "last_update" then
    ⟨df.cols.map (fun c =>
      if c.name = "last_update" then
        { c with dtype := DType.datetime64, cells := c.cells.map toDatetimeCell }
      else c)⟩
  else df

/-- Float conversion attempt on one cell, modelling numpy's element
conversion inside `astype("float64")`: missing values convert (to `NaN`,
kept as the missing marker), numbers convert, numeric strings convert,
non-numeric strings fail. -/
def floatConvCell : Cell → Option Cell
  | .null => some Cell.null
  | .int n => some (Cell.float n 0)
  | .float m e => some (Cell.float m e)
  | .str s =>
    match parseIntLit s with
    | some n => some (Cell.float n 0)
    | none => (parseFloatLit s).map (fun p => Cell.float p.1 p.2)
  | .timestamp _ => none

/-- `series.astype("float64", errors="ignore")` on the cell list: when every
element converts the column is converted, otherwise the whole column is left
unchanged (and no exception escapes). -/
def astypeFloatIgnore (cells : List Cell) : List Cell :=
  if cells.all (fun v => (floatConvCell v).isSome) then
    cells.map (fun v => (floatConvCell v).getD Cell.null)
  else cells

/-- `astype("float64", errors="ignore")` on a whole column, updating the
dtype exactly when the conversion succeeded. -/
def astypeFloatCol (c : Col) : Col :=
  if c.cells.all (fun v => (floatConvCell v).isSome) then
    { c with dtype := DType.float64, cells := astypeFloatIgnore c.cells }
  else c

/-- The 9 designated numeric columns (source line 83). -/
def numericCols : List String :=
  ["fips", "lat", "long_", "confirmed", "deaths", "recovered", "active",
   "incident_rate", "case_fatality_ratio"]

/-- Source lines 83-86: soft-coerce each designated numeric column. -/
def coerceNumerics (df : DataFrame) : DataFrame :=
  numericCols.foldl
    (fun d col =>
      if d.columns.contains col then
        ⟨d.cols.map (fun c => if c.name = col then astypeFloatCol c else c)⟩
      else d)
    df

/-! ### Recovered-only check and pandera validation (source lines 88-94) -/

/-- Source line 89: `set(df.columns) == {"recovered"}`, expressed on the
column list (set equality with a singleton holds exactly when the list is
non-empty and every element is `"recovered"`). -/
def setEqRecovered (names : List String) : Bool :=
  !names.isEmpty && names.all (fun c => c = "recovered")

/-- Pandera column types used by the schema (source lines 49-64). -/
inductive PaType
  | paFloat
  | paString
  | paTimestamp
deriving DecidableEq, Repr

/-- The `DataFrameSchema` of source lines 49-64; every column nullable. -/
def schemaSpec : List (String × PaType) :=
  [("fips", PaType.paFloat), ("admin2", PaType.paString),
   ("province_state", PaType.paString), ("country_region", PaType.paString),
   ("last_update", PaType.paTimestamp), ("lat", PaType.paFloat),
   ("long_", PaType.paFloat), ("confirmed", PaType.paFloat),
   ("deaths", PaType.paFloat), ("recovered", PaType.paFloat),
   ("active", PaType.paFloat), ("combined_key", PaType.paString),
   ("incident_rate", PaType.paFloat), ("case_fatality_ratio", PaType.paFloat)]

/-- Pandera dtype check: `Float` demands `float64`, `String` accepts the
pandas `object` dtype, `Timestamp` demands `datetime64`. -/
def dtypeMatches : PaType → DType → Bool
  | PaType.paFloat, DType.float64 => true
  | PaType.paString, DType.object => true
  | PaType.paTimestamp, DType.datetime64 => true
  | _, _ => false

/-- `schema.validate(df)` (source line 93): with the schema's default
`strict=False` and `coerce=False`, every declared column must be present with
a matching dtype (all columns are nullable, so missing values never fail);
extra columns are ignored and the frame is returned unchanged. -/
def schemaValidate (df : DataFrame) : Except Err DataFrame :=
  if schemaSpec.all (fun p =>
      match df.cols.find? (fun c => c.name = p.1) with
      | some c => dtypeMatches p.2 c.dtype
      | none => false) then
    Except.ok df
  else Except.error Err.schemaError

/-! ### The Normalizer op (source lines 42-98) -/

/-- Source lines 70-86 applied to a freshly parsed frame: normalize and
rename headers, append missing canonical columns, coerce `last_update`,
soft-coerce the numeric columns. -/
def prepareFrame (df : DataFrame) : DataFrame :=
  coerceNumerics (coerceLastUpdate (addMissing (renameColumns (normalizeColumns df))))

/-- The body of the Normalizer after a successful parse: the recovered-only
check (returning `None`, not raising) followed by pandera validation. -/
def processParsed (df : DataFrame) : Except Err (Option DataFrame) :=
  if setEqRecovered (prepareFrame df).columns then Except.ok none
  else
    match schemaValidate (prepareFrame df) with
    | Except.ok v => Except.ok (some v)
    | Except.error e => Except.error e

/-- The whole `try` block of `validate_and_process_data` (source lines 66-94). -/
def processCore (s : String) : Except Err (Option DataFrame) :=
  match read_csv s with
  | Except.ok df => processParsed df
  | Except.error e => Except.error e

/-- `validate_and_process_data` (source lines 42-98): `None` or empty or
whitespace-only payloads are skipped; any exception inside the `try` block is
caught and converted to `None`. -/
def validate_and_process_data (raw_csv : Option String) : Option DataFrame :=
  match raw_csv with
  | none => none
  | some s =>
    if pyStrip s = "" then none
    else
      match processCore s with
      | Except.ok r => r
      | Except.error _ => none

/-! ### The Fetcher op and its Dagster retry execution (source lines 34-40)

`fetch_csv_with_retry` is decorated with `RetryPolicy(max_retries=3, delay=5)`.
Per Dagster's documented semantics, a retry policy re-executes an op only when
the op body raises an exception; a normal return (including `None`) ends the
op successfully, and between re-executions the fixed `delay` is slept. -/

/-- Outcome of one `requests.get(file_url)` call: an HTTP response with a
status code and body text, or a raised transport/connection exception. -/
inductive HttpResult
  | response (status : Nat) (body : String)
  | transportError
deriving DecidableEq, Repr

/-- Outcome of one execution of an op body: a returned value, or a raised
exception propagating out of the body. -/
inductive FetchOutcome
  | returned (v : Option String)
  | raised
deriving DecidableEq, Repr

/-- The body of `fetch_csv_with_retry` (source lines 36-40): a transport
error propagates as an exception; a non-200 status logs a warning and
returns `None`; a 200 response returns its text. -/
def fetch_csv_with_retry_body (r : HttpResult) : FetchOutcome :=
  match r with
  | HttpResult.transportError => FetchOutcome.raised
  | HttpResult.response status body =>
    if status ≠ 200 then FetchOutcome.returned none
    else FetchOutcome.returned (some body)

/-- Dagster's retry loop: `responses i` is what the i-th execution's HTTP
call produces; the result records how many times the body ran, the delays
slept between runs, and the final outcome. -/
def runOpGo (responses : Nat → HttpResult) (delay : Nat) (attempt : Nat) :
    Nat → Nat × List Nat × FetchOutcome
  | 0 => (attempt + 1, [], fetch_csv_with_retry_body (responses attempt))
  | r + 1 =>
    match fetch_csv_with_retry_body (responses attempt) with
    | FetchOutcome.returned v => (attempt + 1, [], FetchOutcome.returned v)
    | FetchOutcome.raised =>
      let rest := runOpGo responses delay (attempt + 1) r
      (rest.1, delay :: rest.2.1, rest.2.2)

/-- Execute the op under `RetryPolicy(max_retries, delay)`. -/
def runOpWithRetry (maxRetries delay : Nat) (responses : Nat → HttpResult) :
    Nat × List Nat × FetchOutcome :=
  runOpGo responses delay 0 maxRetries

/-! ### The Loader op (source lines 100-124) -/

/-- Observable calls the Loader issues against the sink. -/
inductive SinkOp
  | createSchemaRaw
  | appendRows (n : Nat)
deriving DecidableEq, Repr

/-- Whether the Loader finished normally or re-raised a write failure. -/
inductive LoadOutcome
  | completed
  | raisedError
deriving DecidableEq, Repr

/-- `load_data_to_postgres` (source lines 100-124): `None` or empty input is
a logged no-op; otherwise the schema is ensured and the rows appended;
`writeFails` models the sink write raising, which the op logs and re-raises
(the failure is modelled at the append step, after `CREATE SCHEMA` ran). -/
def load_data_to_postgres (df : Option DataFrame) (writeFails : Bool) :
    List SinkOp × LoadOutcome :=
  match df with
  | none => ([], LoadOutcome.completed)
  | some f =>
    if f.isEmptyDf then ([], LoadOutcome.completed)
    else if writeFails then ([SinkOp.createSchemaRaw], LoadOutcome.raisedError)
    else ([SinkOp.createSchemaRaw, SinkOp.appendRows f.nrows], LoadOutcome.completed)

/-! ### The Lister op (source lines 18-27) -/

/-- One entry of the GitHub directory-listing JSON response. -/
structure FileInfo where
  name : String
  download_url : String
deriving DecidableEq, Repr

/-- The list comprehension of source line 26: keep `download_url` of entries
whose `name` ends in `.csv`, in response order. -/
def githubListingFilter (file_data : List FileInfo) : List String :=
  file_data.filterMap
    (fun fi => if endsWithCsv fi.name then some fi.download_url else none)

/-- `github_api_list` (source lines 19-27): non-200 status raises; otherwise
the filtered download URLs are returned. -/
def github_api_list (status_code : Nat) (file_data : List FileInfo) :
    Except String (List String) :=
  if status_code ≠ 200 then
    Except.error ("Failed to fetch file list: " ++ toString status_code)
  else Except.ok (githubListingFilter file_data)

/-- Decidable equality for `Except`, needed to evaluate the embedded ops on
concrete inputs by `decide`. -/
instance {ε α : Type} [DecidableEq ε] [DecidableEq α] : DecidableEq (Except ε α)
  | Except.ok a, Except.ok b =>
    if h : a = b then isTrue (by rw [h]) else isFalse (fun hc => h (Except.ok.inj hc))
  | Except.error a, Except.error b =>
    if h : a = b then isTrue (by rw [h]) else isFalse (fun hc => h (Except.error.inj hc))
  | Except.ok _, Except.error _ => isFalse (fun hc => Except.noConfusion hc)
  | Except.error _, Except.ok _ => isFalse (fun hc => Except.noConfusion hc)

/-! ### Helper lemmas -/

theorem contains_iff_mem {l : List String} {a : String} :
    l.contains a = true ↔ a ∈ l := by
  simp [List.contains, List.elem_iff]

theorem astypeFloatCol_name (c : Col) : (astypeFloatCol c).name = c.name := by
  unfold astypeFloatCol
  split <;> rfl

theorem columns_coerceLastUpdate (df : DataFrame) :
    (coerceLastUpdate df).columns = df.columns := by
  unfold coerceLastUpdate
  split
  · simp only [DataFrame.columns, List.map_map]
    apply List.map_congr_left
    intro c _
    by_cases h : c.name = "last_update" <;> simp [h, Function.comp]
  · rfl

theorem columns_coerceNumerics_aux (names : List String) (df : DataFrame) :
    (names.foldl
      (fun d col =>
        if d.columns.contains col then
          ⟨d.cols.map (fun c => if c.name = col then astypeFloatCol c else c)⟩
        else d)
      df).columns = df.columns := by
  induction names generalizing df with
  | nil => rfl
  | cons n ns ih =>
    rw [List.foldl_cons, ih]
    split
    · simp only [DataFrame.columns, List.map_map]
      apply List.map_congr_left
      intro c _
      by_cases h : c.name = n <;> simp [h, Function.comp, astypeFloatCol_name]
    · rfl

theorem columns_coerceNumerics (df : DataFrame) :
    (coerceNumerics df).columns = df.columns := by
  unfold coerceNumerics
  exact columns_coerceNumerics_aux numericCols df

theorem columns_addMissing (df : DataFrame) :
    (addMissing df).columns
      = df.columns ++ canonicalColumns.filter (fun c => !(df.columns.contains c)) := by
  simp only [addMissing, DataFrame.columns, List.map_append, List.map_map]
  congr 1
  exact (List.map_congr_left (fun a _ => rfl)).trans (List.map_id _)

theorem mem_columns_addMissing (df : DataFrame) {c : String}
    (hc : c ∈ canonicalColumns) : c ∈ (addMissing df).columns := by
  rw [columns_addMissing, List.mem_append]
  cases hcc : df.columns.contains c with
  | true => exact Or.inl (contains_iff_mem.mp hcc)
  | false =>
    refine Or.inr (List.mem_filter.mpr ⟨hc, ?_⟩)
    rw [hcc]
    rfl

theorem mem_columns_prepareFrame (df : DataFrame) {c : String}
    (hc : c ∈ canonicalColumns) : c ∈ (prepareFrame df).columns := by
  unfold prepareFrame
  rw [columns_coerceNumerics, columns_coerceLastUpdate]
  exact mem_columns_addMissing _ hc

theorem canonical_all_mem_prepareFrame (df : DataFrame) :
    canonicalColumns.all (fun c => (prepareFrame df).columns.contains c) = true := by
  rw [List.all_eq_true]
  intro c hc
  exact contains_iff_mem.mpr (mem_columns_prepareFrame df hc)

theorem setEqRecovered_prepareFrame (df : DataFrame) :
    setEqRecovered (prepareFrame df).columns = false := by
  have hf : "fips" ∈ (prepareFrame df).columns :=
    mem_columns_prepareFrame df (by decide)
  unfold setEqRecovered
  have : (prepareFrame df).columns.all (fun c => c = "recovered") = false := by
    rw [List.all_eq_false]
    exact ⟨"fips", hf, by decide⟩
  rw [this, Bool.and_false]

theorem schemaValidate_ok {df v : DataFrame}
    (h : schemaValidate df = Except.ok v) : v = df := by
  unfold schemaValidate at h
  split at h
  · injection h with h
    exact h.symm
  · exact Except.noConfusion h

theorem schemaValidate_error {df : DataFrame} {e : Err}
    (h : schemaValidate df = Except.error e) : e = Err.schemaError := by
  unfold schemaValidate at h
  split at h
  · exact Except.noConfusion h
  · injection h with h
    exact h.symm

theorem processParsed_some {df t : DataFrame}
    (h : processParsed df = Except.ok (some t)) : t = prepareFrame df := by
  unfold processParsed at h
  revert h
  generalize hg : prepareFrame df = g
  intro h
  have hrec : setEqRecovered g.columns = false :=
    hg ▸ setEqRecovered_prepareFrame df
  rw [hrec] at h
  simp only [Bool.false_eq_true, if_false] at h
  cases hv : schemaValidate g with
  | error e => rw [hv] at h; exact Except.noConfusion h
  | ok v =>
    rw [hv] at h
    have hvt : some v = some t := by injection h
    have hvt2 : v = t := by injection hvt
    rw [← hvt2, schemaValidate_ok hv]

theorem validate_some_eq_prepareFrame {raw : Option String} {t : DataFrame}
    (h : validate_and_process_data raw = some t) :
    ∃ s df, raw = some s ∧ read_csv s = Except.ok df ∧ t = prepareFrame df := by
  cases raw with
  | none => simp [validate_and_process_data] at h
  | some s =>
    by_cases hs : pyStrip s = ""
    · simp [validate_and_process_data, hs] at h
    · simp only [validate_and_process_data, if_neg hs] at h
      cases hc : processCore s with
      | error e => rw [hc] at h; simp at h
      | ok r =>
        rw [hc] at h
        dsimp only [] at h
        unfold processCore at hc
        cases hread : read_csv s with
        | error e => rw [hread] at hc; exact Except.noConfusion hc
        | ok df =>
          rw [hread] at hc
          dsimp only [] at hc
          subst h
          exact ⟨s, df, rfl, hread, processParsed_some hc⟩

theorem pyStrip_eq_empty {s : String} (h : s.data.all Char.isWhitespace = true) :
    pyStrip s = "" := by
  unfold pyStrip stripChars
  rw [List.all_eq_true] at h
  have h1 : s.data.dropWhile Char.isWhitespace = [] :=
    List.dropWhile_eq_nil_iff.mpr (fun x hx => h x hx)
  rw [h1]
  rfl

theorem uint32_le_iff_toNat_le {a b : UInt32} : a ≤ b ↔ a.toNat ≤ b.toNat := by
  rw [UInt32.le_def, BitVec.le_def]
  exact Iff.rfl

theorem isUpper_eq_false_of_toNat {c : Char}
    (h : ¬(65 ≤ c.toNat ∧ c.toNat ≤ 90)) : c.isUpper = false := by
  unfold Char.isUpper
  by_cases h1 : (65 : UInt32) ≤ c.val
  · have h1n : 65 ≤ c.toNat := by simpa using uint32_le_iff_toNat_le.mp h1
    have h2 : ¬ c.val ≤ (90 : UInt32) := by
      intro h2
      have h2n : c.toNat ≤ 90 := by simpa using uint32_le_iff_toNat_le.mp h2
      exact h ⟨h1n, h2n⟩
    simp [h1, h2]
  · simp [h1]

theorem toNat_char_ofNat {n : Nat} (h : n.isValidChar) : (Char.ofNat n).toNat = n := by
  unfold Char.ofNat
  rw [dif_pos h]
  rfl

theorem isUpper_toLower_eq_false (c : Char) : (Char.toLower c).isUpper = false := by
  have hunfold : Char.toLower c
      = if 65 ≤ c.toNat ∧ c.toNat ≤ 90 then Char.ofNat (c.toNat + 32) else c := rfl
  rw [hunfold]
  split
  · next h =>
    have hvalid : (c.toNat + 32).isValidChar := Or.inl (by omega)
    apply isUpper_eq_false_of_toNat
    rw [toNat_char_ofNat hvalid]
    omega
  · next h =>
    exact isUpper_eq_false_of_toNat h

theorem replaceChar_step (a d : Char) (ha : a ≠ '_') :
    (if d = a then '_' else d) ≠ a := by
  split
  · exact fun hcon => ha hcon.symm
  · next h => exact h

theorem replaceChar_pres {a b d : Char} (hd : d ≠ b) (hu : ('_' : Char) ≠ b) :
    (if d = a then '_' else d) ≠ b := by
  split
  · exact hu
  · exact hd

theorem replaceChar_upper {a : Char} {d : Char} (hd : d.isUpper = false) :
    (if d = a then '_' else d).isUpper = false := by
  split
  · decide
  · exact hd

theorem normalizeName_char_props (s : String) (c : Char)
    (hc : c ∈ (normalizeName s).data) :
    c ≠ ' ' ∧ c ≠ '-' ∧ c ≠ '/' ∧ c.isUpper = false := by
  unfold normalizeName applyRename at hc
  cases hfind : renameTable.find? (fun p => p.1 = pandasClean s) with
  | some p =>
    rw [hfind] at hc
    have hp : p ∈ renameTable := List.mem_of_find?_eq_some hfind
    have hall : ∀ q ∈ renameTable, ∀ x ∈ q.2.data,
        x ≠ ' ' ∧ x ≠ '-' ∧ x ≠ '/' ∧ x.isUpper = false := by decide
    exact hall p hp c hc
  | none =>
    rw [hfind] at hc
    have hdata : (pandasClean s).data
        = (((s.data.map Char.toLower).map (fun x => if x = ' ' then '_' else x)).map
            (fun x => if x = '-' then '_' else x)).map
            (fun x => if x = '/' then '_' else x) := rfl
    rw [hdata] at hc
    rcases List.mem_map.mp hc with ⟨c2, hc2, rfl⟩
    rcases List.mem_map.mp hc2 with ⟨c1, hc1, rfl⟩
    rcases List.mem_map.mp hc1 with ⟨c0, hc0, rfl⟩
    rcases List.mem_map.mp hc0 with ⟨b, _, rfl⟩
    refine ⟨?_, ?_, ?_, ?_⟩
    · exact replaceChar_pres (replaceChar_pres (replaceChar_step ' ' _ (by decide))
        (by decide)) (by decide)
    · exact replaceChar_pres (replaceChar_step '-' _ (by decide)) (by decide)
    · exact replaceChar_step '/' _ (by decide)
    · exact replaceChar_upper (replaceChar_upper (replaceChar_upper
        (isUpper_toLower_eq_false b)))

/-! ### Claims -/

/-- Claim C1: the spec states that a payload whose normalized column set is
exactly the singleton `{recovered}` is always skipped (the Normalizer returns
`None`).  The code contradicts this (and its own comment `# Skipe recovered
only data`): schema completion (source lines 74-76) runs *before* the
recovered-only check (lines 88-91), so at the check the frame always carries
all 14 canonical columns and the check never fires.  This theorem evaluates
the embedded Normalizer at the failing input `"recovered\n5"`: the result is
a full 14-column table, not `None`. -/
theorem c1_recovered_only_payload_returns_table :
    (validate_and_process_data (some "recovered\n5")).map DataFrame.columns
      = some ["recovered", "fips", "admin2", "province_state", "country_region",
              "last_update", "lat", "long_", "confirmed", "deaths", "active",
              "combined_key", "incident_rate", "case_fatality_ratio"] := by
  decide

/-- Claim C2, counterexample: the claim says every table the Normalizer
returns has *exactly* the 14 canonical columns.  False: extra input columns
are never dropped (the pandera schema has its default `strict=False`), so the
payload `"foo,confirmed\n1,2"` yields a 15-column table containing the
non-canonical column `foo`. -/
theorem c2_counterexample_extra_column_kept :
    (validate_and_process_data (some "foo,confirmed\n1,2")).map DataFrame.columns
      = some ["foo", "confirmed", "fips", "admin2", "province_state",
              "country_region", "last_update", "lat", "long_", "deaths",
              "recovered", "active", "combined_key", "incident_rate",
              "case_fatality_ratio"]
    ∧ "foo" ∉ canonicalColumns := by
  decide

/-- Claim C2 (amended): for every input on which the Normalizer returns a
table, that table's column set *contains* all 14 canonical columns (none
missing); columns of the input outside the canonical set are preserved
rather than dropped, so the output need not equal the canonical set
exactly. -/
theorem c2_amended_output_contains_canonical (raw : Option String) (t : DataFrame)
    (h : validate_and_process_data raw = some t) :
    canonicalColumns.all (fun c => t.columns.contains c) = true := by
  obtain ⟨s, df, hraw, hread, ht⟩ := validate_some_eq_prepareFrame h
  rw [ht]
  exact canonical_all_mem_prepareFrame df

/-- Claim C2 witness: the amended theorem applied to the concrete payload
`"foo,confirmed\n1,2"`. -/
theorem c2_amended_output_contains_canonical_witness :
    canonicalColumns.all (fun c =>
      ((validate_and_process_data (some "foo,confirmed\n1,2")).getD
        ⟨[]⟩).columns.contains c) = true :=
  c2_amended_output_contains_canonical (some "foo,confirmed\n1,2") _ (by decide)

/-- Claim C3, counterexample: the claim says a locator that always returns a
non-success status causes exactly 3 attempts separated by the delay and that
retries are triggered only by non-success status, not transport errors.
Both parts are false under Dagster's retry semantics: the op body *returns*
`None` on a non-success status (no exception), so the op succeeds after
exactly 1 execution with no delays; while a transport error (a raised
exception) is exactly what triggers retries, giving 4 executions. -/
theorem c3_counterexample_retry_inverted :
    runOpWithRetry 3 5 (fun _ => HttpResult.response 500 "")
      = (1, [], FetchOutcome.returned none)
    ∧ (runOpWithRetry 3 5 (fun _ => HttpResult.response 500 "")).1 ≠ 3
    ∧ runOpWithRetry 3 5 (fun _ => HttpResult.transportError)
      = (4, [5, 5, 5], FetchOutcome.raised) := by
  decide

/-- Claim C3 (amended): for every locator whose fetch attempt returns a
non-success HTTP status, `fetch_csv_with_retry` returns `None` after exactly
one attempt, with no delay and without raising; the `RetryPolicy(max_retries=3,
delay=5)` is triggered only by raised exceptions (such as transport errors),
in which case the body runs 4 times with the fixed 5-unit delay slept between
runs and the exception then propagates. -/
theorem c3_amended_retry_semantics (responses : Nat → HttpResult) :
    ((∀ i, ∃ st b, responses i = HttpResult.response st b ∧ st ≠ 200) →
        runOpWithRetry 3 5 responses = (1, [], FetchOutcome.returned none))
    ∧ ((∀ i, responses i = HttpResult.transportError) →
        runOpWithRetry 3 5 responses = (4, [5, 5, 5], FetchOutcome.raised)) := by
  constructor
  · intro h
    obtain ⟨st, b, h0, hne⟩ := h 0
    have hb : fetch_csv_with_retry_body (responses 0) = FetchOutcome.returned none := by
      rw [h0]
      simp [fetch_csv_with_retry_body, hne]
    show runOpGo responses 5 0 3 = (1, [], FetchOutcome.returned none)
    simp [runOpGo, hb]
  · intro h
    have hb : ∀ i, fetch_csv_with_retry_body (responses i) = FetchOutcome.raised :=
      fun i => by rw [h i]; rfl
    show runOpGo responses 5 0 3 = (4, [5, 5, 5], FetchOutcome.raised)
    simp [runOpGo, hb]

/-- Claim C3 witness: the amended theorem applied to a locator answering 404
forever and to a locator whose connection always fails. -/
theorem c3_amended_retry_semantics_witness :
    runOpWithRetry 3 5 (fun _ => HttpResult.response 404 "x")
      = (1, [], FetchOutcome.returned none)
    ∧ runOpWithRetry 3 5 (fun _ => HttpResult.transportError)
      = (4, [5, 5, 5], FetchOutcome.raised) :=
  ⟨(c3_amended_retry_semantics _).1 (fun _ => ⟨404, "x", rfl, by decide⟩),
   (c3_amended_retry_semantics _).2 (fun _ => rfl)⟩

/-- Claim C4: during normalization every header name is lower-cased with
spaces, hyphens and slashes replaced by underscores (so no normalized header
contains a space, hyphen, slash, or upper-case letter), the fixed renames
`latitude → lat`, `longitude → long_`, `incidence_rate → incident_rate` are
then applied, and in particular the payload with header
`Latitude,Longitude,Confirmed` yields a table whose columns include `lat`,
`long_`, `confirmed` (plus the remaining 11 canonical columns). -/
theorem c4_header_normalization :
    (∀ (s : String) (c : Char), c ∈ (normalizeName s).data →
        c ≠ ' ' ∧ c ≠ '-' ∧ c ≠ '/' ∧ c.isUpper = false)
    ∧ normalizeName "Latitude" = "lat"
    ∧ normalizeName "Longitude" = "long_"
    ∧ normalizeName "Incidence Rate" = "incident_rate"
    ∧ (validate_and_process_data
        (some "Latitude,Longitude,Confirmed\n10.0,20.0,5")).map DataFrame.columns
      = some ["lat", "long_", "confirmed", "fips", "admin2", "province_state",
              "country_region", "last_update", "deaths", "recovered", "active",
              "combined_key", "incident_rate", "case_fatality_ratio"] :=
  ⟨normalizeName_char_props, by decide, by decide, by decide, by decide⟩

/-- Claim C4 witness: the universally quantified part of the theorem applied
to the concrete header `Province/State` and the character `p` of its
normalized form. -/
theorem c4_header_normalization_witness :
    'p' ≠ ' ' ∧ 'p' ≠ '-' ∧ 'p' ≠ '/' ∧ 'p'.isUpper = false :=
  c4_header_normalization.1 "Province/State" 'p' (by decide)

/-- Claim C5: type coercion in the Normalizer never raises — a `last_update`
value that fails to parse as a timestamp is coerced to null; a designated
numeric column converts to float when every element converts and is left
as-is when any element is unconvertible; and after a successful parse the
only step of the Normalizer body that can raise at all is the final pandera
schema validation (so the coercion steps themselves never raise). -/
theorem c5_soft_coercion :
    (∀ v : Cell, tsParseCell v = none → toDatetimeCell v = Cell.null)
    ∧ (∀ cells : List Cell, (∀ v ∈ cells, (floatConvCell v).isSome = true) →
        astypeFloatIgnore cells = cells.map (fun v => (floatConvCell v).getD Cell.null))
    ∧ (∀ cells : List Cell, (∃ v ∈ cells, floatConvCell v = none) →
        astypeFloatIgnore cells = cells)
    ∧ (∀ (df : DataFrame) (e : Err), processParsed df = Except.error e →
        e = Err.schemaError) := by
  refine ⟨?_, ?_, ?_, ?_⟩
  · intro v hv
    unfold toDatetimeCell
    rw [hv]
  · intro cells h
    unfold astypeFloatIgnore
    rw [if_pos (List.all_eq_true.mpr h)]
  · intro cells h
    unfold astypeFloatIgnore
    rw [if_neg ?_]
    intro hall
    obtain ⟨v, hv, hnone⟩ := h
    have := List.all_eq_true.mp hall v hv
    rw [hnone] at this
    exact Bool.noConfusion this
  · intro df e h
    unfold processParsed at h
    revert h
    generalize prepareFrame df = g
    intro h
    split at h
    · exact Except.noConfusion h
    · cases hv : schemaValidate g with
      | ok v =>
        rw [hv] at h
        exact Except.noConfusion h
      | error e2 =>
        rw [hv] at h
        injection h with h
        exact h ▸ schemaValidate_error hv

/-- Claim C5 witness: the theorem applied to the unparseable timestamp
`"garbage"`, an all-convertible column, a column holding the unconvertible
string `"abc"`, and the parsed frame of payload `"confirmed\nabc"` (whose
only raise is the pandera schema error). -/
theorem c5_soft_coercion_witness :
    toDatetimeCell (Cell.str "garbage") = Cell.null
    ∧ astypeFloatIgnore [Cell.int 7]
        = [Cell.int 7].map (fun v => (floatConvCell v).getD Cell.null)
    ∧ astypeFloatIgnore [Cell.str "abc", Cell.int 1] = [Cell.str "abc", Cell.int 1]
    ∧ Err.schemaError = Err.schemaError :=
  ⟨c5_soft_coercion.1 _ (by decide),
   c5_soft_coercion.2.1 _ (by decide),
   c5_soft_coercion.2.2.1 _ ⟨Cell.str "abc", by decide, by decide⟩,
   c5_soft_coercion.2.2.2 ((read_csv "confirmed\nabc").toOption.getD ⟨[]⟩)
     Err.schemaError (by decide)⟩

/-- Claim C6: an absent payload, the empty string, or a whitespace-only
string always makes the Normalizer return the absent marker (its guard
`raw_csv is None or not raw_csv.strip()` fires before any parsing, so no
exception can arise). -/
theorem c6_absent_or_blank_input (s : String) :
    validate_and_process_data none = none
    ∧ (s.data.all Char.isWhitespace = true →
        validate_and_process_data (some s) = none) := by
  refine ⟨rfl, fun h => ?_⟩
  have hs := pyStrip_eq_empty h
  show (if pyStrip s = "" then (none : Option DataFrame)
        else match processCore s with
             | Except.ok r => r
             | Except.error _ => none) = none
  rw [if_pos hs]

/-- Claim C6 witness: the theorem applied to the whitespace-only payload
`" \n\t"` (which also covers the empty string, whose character list is
vacuously all-whitespace). -/
theorem c6_absent_or_blank_input_witness :
    validate_and_process_data (some " \n\t") = none :=
  (c6_absent_or_blank_input " \n\t").2 (by decide)

/-- Claim C7: an absent input or a structurally empty table makes the Loader
perform no sink call at all — no schema creation, no insert — and finish
without raising. -/
theorem c7_loader_noop_on_absent_or_empty :
    (∀ wf : Bool, load_data_to_postgres none wf = ([], LoadOutcome.completed))
    ∧ (∀ (f : DataFrame) (wf : Bool), f.isEmptyDf = true →
        load_data_to_postgres (some f) wf = ([], LoadOutcome.completed)) := by
  refine ⟨fun wf => rfl, fun f wf h => ?_⟩
  show (if f.isEmptyDf then ([], LoadOutcome.completed)
        else if wf then ([SinkOp.createSchemaRaw], LoadOutcome.raisedError)
        else ([SinkOp.createSchemaRaw, SinkOp.appendRows f.nrows],
              LoadOutcome.completed)) = ([], LoadOutcome.completed)
  rw [h]
  rfl

/-- Claim C7 witness: the theorem applied to a zero-row table with a failing
sink. -/
theorem c7_loader_noop_witness :
    load_data_to_postgres (some ⟨[⟨"confirmed", DType.float64, []⟩]⟩) true
      = ([], LoadOutcome.completed) :=
  c7_loader_noop_on_absent_or_empty.2 ⟨[⟨"confirmed", DType.float64, []⟩]⟩ true
    (by decide)

/-- Claim C8, counterexample: the claim says the Loader is the *only* stage
whose failure may propagate out of an item's pipeline branch.  False: the
Fetcher's body has no handler for raised transport errors, so after the
retry policy is exhausted the exception propagates out of the fetch stage of
the branch. -/
theorem c8_counterexample_fetch_also_propagates :
    (runOpWithRetry 3 5 (fun _ => HttpResult.transportError)).2.2
      = FetchOutcome.raised := by
  decide

/-- Claim C8 (amended): for every non-empty table input, a failure raised
during the sink write is re-raised out of `load_data_to_postgres`; the
Normalizer converts every internal failure into the absent marker instead of
raising; but the Loader is not the only stage that can propagate a failure
out of a branch — the Fetcher propagates transport errors as well. -/
theorem c8_amended_write_failure_reraised :
    (∀ f : DataFrame, f.isEmptyDf = false →
        (load_data_to_postgres (some f) true).2 = LoadOutcome.raisedError)
    ∧ (∀ (s : String) (e : Err), processCore s = Except.error e →
        validate_and_process_data (some s) = none) := by
  constructor
  · intro f h
    show (if f.isEmptyDf then ([], LoadOutcome.completed)
          else if true then ([SinkOp.createSchemaRaw], LoadOutcome.raisedError)
          else ([SinkOp.createSchemaRaw, SinkOp.appendRows f.nrows],
                LoadOutcome.completed)).2 = LoadOutcome.raisedError
    rw [h]
    rfl
  · intro s e h
    show (if pyStrip s = "" then (none : Option DataFrame)
          else match processCore s with
               | Except.ok r => r
               | Except.error _ => none) = none
    by_cases hs : pyStrip s = ""
    · rw [if_pos hs]
    · rw [if_neg hs, h]

/-- Claim C8 witness: the amended theorem applied to a concrete one-row
table with a failing sink write, and to the payload `"confirmed\nabc"`
whose pandera validation fails and is absorbed. -/
theorem c8_amended_write_failure_reraised_witness :
    (load_data_to_postgres
        (some ⟨[⟨"confirmed", DType.float64, [Cell.float 1 0]⟩]⟩) true).2
      = LoadOutcome.raisedError
    ∧ validate_and_process_data (some "confirmed\nabc") = none :=
  ⟨c8_amended_write_failure_reraised.1 ⟨[⟨"confirmed", DType.float64,
      [Cell.float 1 0]⟩]⟩ (by decide),
   c8_amended_write_failure_reraised.2 "confirmed\nabc" Err.schemaError (by decide)⟩

theorem githubListingFilter_eq (l : List FileInfo) :
    githubListingFilter l
      = (l.filter (fun fi => endsWithCsv fi.name)).map (fun fi => fi.download_url) := by
  induction l with
  | nil => rfl
  | cons a t ih =>
    unfold githubListingFilter at ih ⊢
    cases ha : endsWithCsv a.name <;>
      simp [List.filterMap_cons, ha, List.filter_cons, ih]

/-- Claim C9: on a success (200) listing response `github_api_list` returns
exactly the download URLs of the entries whose name ends in `.csv`, in
response order; on any non-success status it raises. -/
theorem c9_listing_filter_and_error (status_code : Nat) (file_data : List FileInfo) :
    (status_code = 200 →
        github_api_list status_code file_data
          = Except.ok ((file_data.filter (fun fi => endsWithCsv fi.name)).map
              (fun fi => fi.download_url)))
    ∧ (status_code ≠ 200 →
        github_api_list status_code file_data
          = Except.error ("Failed to fetch file list: " ++ toString status_code)) := by
  constructor
  · intro h
    subst h
    unfold github_api_list
    rw [if_neg (by decide)]
    rw [githubListingFilter_eq]
  · intro h
    unfold github_api_list
    rw [if_pos h]

/-- Claim C9 witness: the theorem applied to a concrete 200 response holding
two `.csv` entries around a non-`.csv` one (order preserved, non-matching
entry dropped), and to a 404 response. -/
theorem c9_listing_filter_and_error_witness :
    github_api_list 200
        [⟨"01-01-2021.csv", "urlA"⟩, ⟨"README.md", "urlR"⟩, ⟨"02-01-2021.csv", "urlB"⟩]
      = Except.ok ["urlA", "urlB"]
    ∧ github_api_list 404 [⟨"01-01-2021.csv", "urlA"⟩]
      = Except.error ("Failed to fetch file list: " ++ toString 404) :=
  ⟨Eq.trans ((c9_listing_filter_and_error 200
      [⟨"01-01-2021.csv", "urlA"⟩, ⟨"README.md", "urlR"⟩,
       ⟨"02-01-2021.csv", "urlB"⟩]).1 rfl) (by decide),
   (c9_listing_filter_and_error 404 [⟨"01-01-2021.csv", "urlA"⟩]).2 (by decide)⟩

/-- Claim C10 (implicit invariant): schema completion runs before the
recovered-only check, so for every payload that parses, the frame at the
check point carries all 14 canonical columns and the branch testing
`set(df.columns) == {"recovered"}` is unreachable. -/
theorem c10_recovered_check_unreachable (s : String) (df : DataFrame)
    (_h : read_csv s = Except.ok df) :
    canonicalColumns.all (fun c => (prepareFrame df).columns.contains c) = true
    ∧ setEqRecovered (prepareFrame df).columns = false :=
  ⟨canonical_all_mem_prepareFrame df, setEqRecovered_prepareFrame df⟩

/-- Claim C10 witness: the theorem applied to the parse of the recovered-only
payload `"recovered\n5"` itself. -/
theorem c10_recovered_check_unreachable_witness :
    canonicalColumns.all (fun c =>
      (prepareFrame ((read_csv "recovered\n5").toOption.getD
        ⟨[]⟩)).columns.contains c) = true
    ∧ setEqRecovered
        (prepareFrame ((read_csv "recovered\n5").toOption.getD ⟨[]⟩)).columns
      = false :=
  c10_recovered_check_unreachable "recovered\n5" _ (by decide)
